import Mathlib

/-!
Verification of the Living-Codex module-conversion planning engine.

The definitions below are a shallow embedding of the Python analysis
scripts: the priority scorer and phase planner of
`spec-driven-conversion-plan.py`, the strategy chooser of
`mark-modules-for-conversion.py`, the topic classifier and data fetchers
of `analyze_modules_systematic.py`, and the cohesion analyzer of
`analyze_routes_detailed.py`.  Python strings are modelled as Lean
`String`s; `str.lower()` is modelled on ASCII data, `pat in s` as
substring search, and `s.startswith(pat)` as a leading-run check.
-/

namespace LivingCodex

/-- ASCII lowercase of one character (Python `str.lower` on ASCII input). -/
def lowerChar (c : Char) : Char :=
  if 65 ≤ c.toNat ∧ c.toNat ≤ 90 then Char.ofNat (c.toNat + 32) else c

/-- ASCII lowercase of a string (Python `str.lower` on ASCII input). -/
def strLower (s : String) : String :=
  String.mk (s.data.map lowerChar)

/-- `leadMatch pat s`: `pat` is an initial run of `s`. -/
def leadMatch : List Char → List Char → Bool
  | [], _ => true
  | _ :: _, [] => false
  | a :: as, b :: bs => a == b && leadMatch as bs

/-- `subMatch pat s`: `pat` occurs contiguously inside `s`. -/
def subMatch : List Char → List Char → Bool
  | pat, [] => leadMatch pat []
  | pat, c :: t => leadMatch pat (c :: t) || subMatch pat t

/-- Python `pat in s` (substring containment). -/
def strHas (s pat : String) : Bool := subMatch pat.data s.data

/-- Python `s.startswith(pat)`. -/
def strStarts (s pat : String) : Bool := leadMatch pat.data s.data

/-- Input record of `_calculate_conversion_priority`: module id, name,
feature list, hot-reload flag and route count. -/
structure ScoreInput where
  moduleId : String
  name : String
  features : List String
  isHotReloadable : Bool
  routeCount : Nat
deriving Repr, DecidableEq

/-- `"AI" in features or "LLM" in features`. -/
def hasAI (m : ScoreInput) : Bool :=
  m.features.contains "AI" || m.features.contains "LLM"

/-- `pat in module_id.lower()`. -/
def idHas (m : ScoreInput) (pat : String) : Bool :=
  strHas (strLower m.moduleId) pat

/-- The additive priority accumulated by
`SpecDrivenConversionPlanner._calculate_conversion_priority` before the
final `max(0, priority)` clamp.  Each summand mirrors one `if` of the
Python code, in source order. -/
def rawConversionPriority (m : ScoreInput) : Int :=
  (if hasAI m then (20 : Int) else 0)
  + (if m.features.contains "Resonance" then 15 else 0)
  + (if m.features.contains "Real-time" then 12 else 0)
  + (if m.features.contains "Translation" then 10 else 0)
  + (if m.features.contains "Security" then 8 else 0)
  + (if m.features.contains "Graph" then 6 else 0)
  + (if 10 < m.routeCount then 8 else if 5 < m.routeCount then 4 else 0)
  + (if m.isHotReloadable then 5 else 0)
  + (if idHas m "test" || idHas m "demo" then 3 else 0)
  + (if idHas m "spec" then 15 else 0)
  + (if idHas m "concept" then 12 else 0)
  + (if idHas m "core" && !m.isHotReloadable then -5 else 0)
  + (if m.routeCount == 0 then -3 else 0)

/-- The priority returned by `_calculate_conversion_priority`:
`max(0, priority)`. -/
def conversionPriority (m : ScoreInput) : Int :=
  max 0 (rawConversionPriority m)

/-- The reason clauses appended by `_calculate_conversion_priority`,
in source order. -/
def conversionReasons (m : ScoreInput) : List String :=
  (if hasAI m then ["AI/LLM features"] else [])
  ++ (if m.features.contains "Resonance" then ["Resonance features"] else [])
  ++ (if m.features.contains "Real-time" then ["Real-time features"] else [])
  ++ (if m.features.contains "Translation" then ["Translation features"] else [])
  ++ (if m.features.contains "Security" then ["Security features"] else [])
  ++ (if m.features.contains "Graph" then ["Graph features"] else [])
  ++ (if 10 < m.routeCount then
        ["High route count (" ++ toString m.routeCount ++ ")"]
      else if 5 < m.routeCount then
        ["Medium route count (" ++ toString m.routeCount ++ ")"]
      else [])
  ++ (if m.isHotReloadable then ["Already hot-reloadable"] else [])
  ++ (if idHas m "test" || idHas m "demo" then ["Test/Demo module"] else [])
  ++ (if idHas m "spec" then ["Spec-related module"] else [])
  ++ (if idHas m "concept" then ["Concept management"] else [])
  ++ (if idHas m "core" && !m.isHotReloadable then
        ["Core module - lower priority"] else [])
  ++ (if m.routeCount == 0 then ["No routes - limited functionality"] else [])

/-- The reason text: clauses joined with `"; "`, or `"Standard module"`
when no rule fired. -/
def conversionReason (m : ScoreInput) : String :=
  if (conversionReasons m).isEmpty then "Standard module"
  else String.intercalate "; " (conversionReasons m)

/-- The strategy tag computed by `_calculate_conversion_priority`: the
variable `strategy` starts at `"standard"` and each matching rule of the
Python `if` sequence overwrites it, in source order. -/
def conversionStrategy (m : ScoreInput) : String :=
  let s0 := "standard"
  let s1 := if hasAI m then "ai-enhanced" else s0
  let s2 := if m.features.contains "Resonance" then "resonance-optimized" else s1
  let s3 := if m.features.contains "Real-time" then "realtime-optimized" else s2
  let s4 := if m.features.contains "Translation" then "translation-optimized" else s3
  let s5 := if m.features.contains "Security" then "security-focused" else s4
  let s6 := if m.features.contains "Graph" then "graph-optimized" else s5
  let s7 := if m.isHotReloadable then "hot-reload-ready" else s6
  let s8 := if idHas m "test" || idHas m "demo" then "test-optimized" else s7
  let s9 := if idHas m "spec" then "spec-native" else s8
  let s10 := if idHas m "concept" then "concept-optimized" else s9
  s10

/-- The strategy-setting rules of `_calculate_conversion_priority` as an
ordered table: for a given module, the fired flag and the strategy each
rule would set.  The order is the source order of the `if` statements
that assign `strategy`. -/
def strategyRules (m : ScoreInput) : List (Bool × String) :=
  [(hasAI m, "ai-enhanced"),
   (m.features.contains "Resonance", "resonance-optimized"),
   (m.features.contains "Real-time", "realtime-optimized"),
   (m.features.contains "Translation", "translation-optimized"),
   (m.features.contains "Security", "security-focused"),
   (m.features.contains "Graph", "graph-optimized"),
   (m.isHotReloadable, "hot-reload-ready"),
   (idHas m "test" || idHas m "demo", "test-optimized"),
   (idHas m "spec", "spec-native"),
   (idHas m "concept", "concept-optimized")]

/-- Sequential overwrite over a rule table: later firing rules replace
the accumulated value. -/
def overwriteFold (d : String) (l : List (Bool × String)) : String :=
  l.foldl (fun acc p => if p.1 then p.2 else acc) d

/-- The value attached to the LAST firing rule of the table (default `d`
when no rule fires). -/
def lastHit (d : String) (l : List (Bool × String)) : String :=
  ((l.reverse.find? (fun p => p.1)).map (fun p => p.2)).getD d

/-- `ModuleConversionMarker._determine_strategy` from
`mark-modules-for-conversion.py`: a first-match `if/elif` chain over a
DIFFERENT rule order (Resonance before AI/LLM, no hot-reload rule,
spec and concept before test). -/
def determineStrategy (m : ScoreInput) : String :=
  if m.features.contains "Resonance" then "resonance-optimized"
  else if hasAI m then "ai-enhanced"
  else if m.features.contains "Real-time" then "realtime-optimized"
  else if m.features.contains "Translation" then "translation-optimized"
  else if m.features.contains "Security" then "security-focused"
  else if m.features.contains "Graph" then "graph-optimized"
  else if idHas m "spec" then "spec-native"
  else if idHas m "concept" then "concept-optimized"
  else if idHas m "test" then "test-optimized"
  else "standard"

/-- A module record as supplied by `/spec/modules/all` and consumed by
`analyze_conversion_candidates`. -/
structure ModuleRec where
  id : String
  name : String
  features : List String
  isHotReloadable : Bool
  isStable : Bool
deriving Repr, DecidableEq

/-- A route record as supplied by `/spec/routes/all`; only the owning
module id matters to the planner's route counting. -/
structure RouteRec where
  id : String
  path : String
  method : String
  moduleId : String
deriving Repr, DecidableEq

/-- The per-module route count built by the `route_counts` dictionary
loop of `analyze_conversion_candidates`: the number of routes whose
`moduleId` equals the module's id. -/
def routeCountFor (routes : List RouteRec) (mid : String) : Nat :=
  (routes.filter (fun r => r.moduleId == mid)).length

/-- The `ModuleConversionCandidate` dataclass. -/
structure Candidate where
  id : String
  name : String
  priority : Int
  reason : String
  features : List String
  routes : Nat
  isHotReloadable : Bool
  conversionStrategy : String
deriving Repr, DecidableEq

/-- Packaging of a module record and its route count as scorer input. -/
def scoreInputOf (m : ModuleRec) (rc : Nat) : ScoreInput :=
  ⟨m.id, m.name, m.features, m.isHotReloadable, rc⟩

/-- The `ModuleConversionCandidate` built for one module in the loop of
`analyze_conversion_candidates`. -/
def candidateOf (m : ModuleRec) (rc : Nat) : Candidate :=
  ⟨m.id, m.name, conversionPriority (scoreInputOf m rc),
   conversionReason (scoreInputOf m rc), m.features, rc,
   m.isHotReloadable, conversionStrategy (scoreInputOf m rc)⟩

/-- One iteration of the candidate loop of
`analyze_conversion_candidates`: stable modules are skipped
(`if is_stable: continue`), and a candidate is appended only when
`priority > 0`. -/
def candidateFor (routes : List RouteRec) (m : ModuleRec) : Option Candidate :=
  if m.isStable then none
  else if 0 < conversionPriority (scoreInputOf m (routeCountFor routes m.id)) then
    some (candidateOf m (routeCountFor routes m.id))
  else none

/-- The comparison of `candidates.sort(key=lambda x: x.priority,
reverse=True)`: descending by priority, stable on ties. -/
def priorityDesc (a b : Candidate) : Bool :=
  b.priority ≤ a.priority

/-- `SpecDrivenConversionPlanner.analyze_conversion_candidates`: one
candidate per non-stable module whose clamped priority is positive,
sorted descending by priority with a stable sort. -/
def analyzeConversionCandidates (modules : List ModuleRec)
    (routes : List RouteRec) : List Candidate :=
  List.mergeSort (modules.filterMap (candidateFor routes)) priorityDesc

/-- A `{"id": ..., "name": ..., "priority": ...}` summary inside a
phase's `modules` list. -/
structure PhaseEntry where
  id : String
  name : String
  priority : Int
deriving Repr, DecidableEq

/-- One phase dictionary of `_create_conversion_phases`. -/
structure Phase where
  phase : Nat
  name : String
  description : String
  modules : List PhaseEntry
  estimatedEffort : String
  timeline : String
deriving Repr, DecidableEq

/-- Projection of a candidate to its phase summary. -/
def phaseEntryOf (c : Candidate) : PhaseEntry :=
  ⟨c.id, c.name, c.priority⟩

/-- Phase 1 predicate: `c.priority >= 20 and c.is_hot_reloadable`. -/
def phase1Pred (c : Candidate) : Bool :=
  decide (20 ≤ c.priority) && c.isHotReloadable

/-- Phase 2 predicate: `c.priority >= 15 and not c.is_hot_reloadable
and "test" not in c.id.lower()`. -/
def phase2Pred (c : Candidate) : Bool :=
  decide (15 ≤ c.priority) && !c.isHotReloadable
    && !(strHas (strLower c.id) "test")

/-- Phase 3 predicate: `10 <= c.priority < 15`. -/
def phase3Pred (c : Candidate) : Bool :=
  decide (10 ≤ c.priority) && decide (c.priority < 15)

/-- Phase 4 predicate: `c.priority < 10 and c.priority > 0`. -/
def phase4Pred (c : Candidate) : Bool :=
  decide (c.priority < 10) && decide (0 < c.priority)

/-- `SpecDrivenConversionPlanner._create_conversion_phases`: each phase
filters the candidate list independently; phases with no qualifying
candidate are omitted; phase 2 keeps the first 5 entries and phase 3
the first 8. -/
def createConversionPhases (candidates : List Candidate) : List Phase :=
  let g1 := candidates.filter phase1Pred
  let g2 := candidates.filter phase2Pred
  let g3 := candidates.filter phase3Pred
  let g4 := candidates.filter phase4Pred
  (if g1.isEmpty then [] else
    [⟨1, "Quick Wins - Hot-Reload Ready",
      "Convert modules that are already hot-reloadable and high priority",
      g1.map phaseEntryOf, "Low", "1-2 days"⟩])
  ++ (if g2.isEmpty then [] else
    [⟨2, "High-Impact Conversions",
      "Convert high-priority modules that need hot-reload setup",
      (g2.take 5).map phaseEntryOf, "Medium", "1-2 weeks"⟩])
  ++ (if g3.isEmpty then [] else
    [⟨3, "Medium-Priority Conversions",
      "Convert medium-priority modules for broader coverage",
      (g3.take 8).map phaseEntryOf, "Medium", "2-3 weeks"⟩])
  ++ (if g4.isEmpty then [] else
    [⟨4, "Complete Coverage",
      "Convert remaining modules for complete spec-driven coverage",
      g4.map phaseEntryOf, "High", "1-2 months"⟩])

/-- The closed set of topics assigned by `analyze_module_topics`. -/
inductive Topic where
  | aiLLM
  | translation
  | concept
  | joyResonance
  | storage
  | security
  | coreSystem
  | userManagement
  | communication
  | analysisIntelligence
  | apiDocumentation
  | futureKnowledge
  | other
deriving Repr, DecidableEq

/-- `any(keyword in module_id or keyword in module_name for keyword in kws)`
over the lowercased id and name. -/
def kwMatch (kws : List String) (lid lname : String) : Bool :=
  kws.any (fun k => strHas lid k || strHas lname k)

/-- `analyze_module_topics` restricted to one module: the `if/elif`
keyword chain over the lowercased id and name, with `Other` as the
final `else`.  Branch order is the source order. -/
def classifyModule (mid mname : String) : Topic :=
  let lid := strLower mid
  let lname := strLower mname
  if kwMatch ["ai", "llm", "llm.future", "llm.response", "ucore.llm"] lid lname then
    Topic.aiLLM
  else if kwMatch ["translation", "translate", "language"] lid lname then
    Topic.translation
  else if kwMatch ["concept", "concept-registry", "userconcept"] lid lname then
    Topic.concept
  else if kwMatch ["joy", "resonance", "ucore.joy", "resonance-joy"] lid lname then
    Topic.joyResonance
  else if kwMatch ["storage", "distributed-storage", "storage-endpoints"] lid lname then
    Topic.storage
  else if kwMatch ["security", "auth", "access-control", "digital-signature", "identity"] lid lname then
    Topic.security
  else if kwMatch ["core", "breath", "composer", "delta", "phase", "plan", "relations"] lid lname then
    Topic.coreSystem
  else if kwMatch ["user", "user-contributions"] lid lname then
    Topic.userManagement
  else if kwMatch ["realtime", "event-streaming", "push-notifications"] lid lname then
    Topic.communication
  else if kwMatch ["analysis", "intelligent", "caching", "load-balancing"] lid lname then
    Topic.analysisIntelligence
  else if kwMatch ["openapi", "spec", "reflect", "oneshot"] lid lname then
    Topic.apiDocumentation
  else if kwMatch ["future", "knowledge"] lid lname then
    Topic.futureKnowledge
  else
    Topic.other

/-- The classifier's rule table in evaluation order: the 12 keyword
rules of the `if/elif` chain followed by the default rule (the empty
keyword is a substring of every string, so the 13th rule matches every
module and yields `Other`, exactly like the final `else`). -/
def topicRules : List (List String × Topic) :=
  [(["ai", "llm", "llm.future", "llm.response", "ucore.llm"], Topic.aiLLM),
   (["translation", "translate", "language"], Topic.translation),
   (["concept", "concept-registry", "userconcept"], Topic.concept),
   (["joy", "resonance", "ucore.joy", "resonance-joy"], Topic.joyResonance),
   (["storage", "distributed-storage", "storage-endpoints"], Topic.storage),
   (["security", "auth", "access-control", "digital-signature", "identity"], Topic.security),
   (["core", "breath", "composer", "delta", "phase", "plan", "relations"], Topic.coreSystem),
   (["user", "user-contributions"], Topic.userManagement),
   (["realtime", "event-streaming", "push-notifications"], Topic.communication),
   (["analysis", "intelligent", "caching", "load-balancing"], Topic.analysisIntelligence),
   (["openapi", "spec", "reflect", "oneshot"], Topic.apiDocumentation),
   (["future", "knowledge"], Topic.futureKnowledge),
   ([""], Topic.other)]

/-- First-match-wins evaluation of the ordered rule table. -/
def classifyByTable (mid mname : String) : Topic :=
  ((topicRules.find?
      (fun r => kwMatch r.1 (strLower mid) (strLower mname))).map
    (fun r => r.2)).getD Topic.other

/-- One route record of the detailed route analysis input
(`route['route']` is the HTTP path, `route['apiName']` the display
name). -/
structure RouteEntry where
  route : String
  apiName : String
deriving Repr, DecidableEq

/-- The six concern families of `analyze_module_cohesion`. -/
inductive Concern where
  | ai
  | translation
  | concept
  | joy
  | resonance
  | storage
deriving Repr, DecidableEq

/-- The concern tag a single route contributes in
`analyze_module_cohesion`: the `if/elif` chain adds at most one tag,
in the source order ai, translation, concept, joy, resonance,
storage. -/
def concernOf (r : RouteEntry) : Option Concern :=
  if strStarts r.route "/ai/" || strHas (strLower r.apiName) "ai" then
    some Concern.ai
  else if strStarts r.route "/translation/" || strHas (strLower r.apiName) "translate" then
    some Concern.translation
  else if strStarts r.route "/concept/" || strHas (strLower r.apiName) "concept" then
    some Concern.concept
  else if strStarts r.route "/joy/" || strHas (strLower r.apiName) "joy" then
    some Concern.joy
  else if strStarts r.route "/resonance/" || strHas (strLower r.apiName) "resonance" then
    some Concern.resonance
  else if strStarts r.route "/storage/" || strHas (strLower r.apiName) "storage" then
    some Concern.storage
  else
    none

/-- The per-family match condition, one per branch of the chain in
`analyze_module_cohesion`. -/
def famMatch (c : Concern) (r : RouteEntry) : Bool :=
  match c with
  | Concern.ai => strStarts r.route "/ai/" || strHas (strLower r.apiName) "ai"
  | Concern.translation => strStarts r.route "/translation/" || strHas (strLower r.apiName) "translate"
  | Concern.concept => strStarts r.route "/concept/" || strHas (strLower r.apiName) "concept"
  | Concern.joy => strStarts r.route "/joy/" || strHas (strLower r.apiName) "joy"
  | Concern.resonance => strStarts r.route "/resonance/" || strHas (strLower r.apiName) "resonance"
  | Concern.storage => strStarts r.route "/storage/" || strHas (strLower r.apiName) "storage"

/-- The fixed evaluation order of the concern families. -/
def concernOrder : List Concern :=
  [Concern.ai, Concern.translation, Concern.concept,
   Concern.joy, Concern.resonance, Concern.storage]

/-- The issue strings appended by `analyze_module_cohesion`, abstracted
to symbolic issues (the Python strings interpolate a Python set, whose
iteration order is unspecified; only identity and count matter here). -/
inductive Issue where
  | multipleConcerns
  | joyScattered
  | resonanceScattered
deriving Repr, DecidableEq

/-- The cohesion report of `analyze_module_cohesion` for one module. -/
structure CohesionReport where
  routeCount : Nat
  concerns : Finset Concern
  issues : List Issue
  cohesionScore : Int
deriving DecidableEq

/-- `analyze_module_cohesion` for one module: collect the distinct
concern tags of the routes (`route_types`, a Python set), build the
issue list (multiple-concerns when more than two tags, scattering
checks for joy and resonance), and score
`max(0, 10 - len(issues) - len(route_types))`. -/
def analyzeModuleCohesion (moduleId : String) (routes : List RouteEntry) :
    CohesionReport :=
  let types := (routes.filterMap concernOf).toFinset
  let issues :=
    (if 2 < types.card then [Issue.multipleConcerns] else [])
    ++ (if Concern.joy ∈ types ∧ moduleId ≠ "codex.joy" then
          [Issue.joyScattered] else [])
    ++ (if Concern.resonance ∈ types ∧ moduleId ≠ "codex.resonance" then
          [Issue.resonanceScattered] else [])
  ⟨routes.length, types, issues,
   max 0 ((10 : Int) - issues.length - types.card)⟩

/-- Output of one fetch helper of `analyze_modules_systematic.py`:
what the `except` handler printed, and the returned value. -/
structure FetchOutcome (α : Type) where
  printed : List String
  result : α
deriving Repr, DecidableEq

/-- A basic module record parsed from the loading report. -/
structure ModuleInfoRec where
  id : String
  name : String
  version : String
deriving Repr, DecidableEq

/-- A node of the `codex.meta/api` query answered by the inventory
service, as read by `get_all_routes`. -/
structure ApiNode where
  id : String
  title : String
  metaPath : Option String
  metaMethod : Option String
  metaModule : Option String
deriving Repr, DecidableEq

/-- A route record assembled by `get_all_routes`. -/
structure RouteOut where
  id : String
  path : String
  method : String
  description : String
  moduleName : String
deriving Repr, DecidableEq

/-- The `try` body of `get_all_routes`: keep nodes whose id contains
`"api/"`, then keep those with a `path` in their meta, defaulting
method to `GET` and module to `unknown`. -/
def extractRoutes (nodes : List ApiNode) : List RouteOut :=
  (nodes.filter (fun n => strHas n.id "api/")).filterMap
    (fun n =>
      match n.metaPath with
      | some p =>
          some ⟨n.id, p, n.metaMethod.getD "GET", n.title,
                n.metaModule.getD "unknown"⟩
      | none => none)

/-- `get_all_routes`: the upstream fetch either yields parsed nodes or
fails; on failure the `except` handler prints an error message and the
function returns the empty list. -/
def getAllRoutes (fetch : Except String (List ApiNode)) :
    FetchOutcome (List RouteOut) :=
  match fetch with
  | Except.ok nodes => ⟨[], extractRoutes nodes⟩
  | Except.error e => ⟨["Error getting routes: " ++ e], []⟩

/-- `get_loaded_modules`: the upstream fetch either yields module
records or fails; on failure the `except` handler prints an error
message and the function returns the empty list. -/
def getLoadedModules (fetch : Except String (List ModuleInfoRec)) :
    FetchOutcome (List ModuleInfoRec) :=
  match fetch with
  | Except.ok ms => ⟨[], ms⟩
  | Except.error e => ⟨["Error getting modules: " ++ e], []⟩

/-! Helper lemmas shared by several developments. -/

theorem subMatch_nil (l : List Char) : subMatch [] l = true := by
  cases l <;> simp [subMatch, leadMatch]

theorem strHas_empty (s : String) : strHas s "" = true := subMatch_nil s.data

theorem kwMatch_default (lid lname : String) : kwMatch [""] lid lname = true := by
  simp [kwMatch, strHas_empty]

theorem priorityDesc_trans : ∀ a b c : Candidate,
    priorityDesc a b → priorityDesc b c → priorityDesc a c := by
  intro a b c h1 h2
  simp only [priorityDesc, decide_eq_true_eq] at *
  omega

theorem priorityDesc_total : ∀ a b : Candidate,
    priorityDesc a b || priorityDesc b a := by
  intro a b
  simp only [priorityDesc, Bool.or_eq_true, decide_eq_true_eq]
  omega

theorem pairwise_take_drop {α : Type} {R : α → α → Prop} {l : List α}
    (h : l.Pairwise R) (n : Nat) :
    ∀ x ∈ l.take n, ∀ y ∈ l.drop n, R x y := by
  rw [← List.take_append_drop n l] at h
  exact (List.pairwise_append.mp h).2.2

theorem filter_filter_of_imp {α : Type} (p q : α → Bool)
    (h : ∀ a, p a = true → q a = true) (l : List α) :
    (l.filter q).filter p = l.filter p := by
  induction l with
  | nil => rfl
  | cons a t ih =>
    cases hq : q a with
    | true =>
      cases hp : p a <;> simp [List.filter_cons, hq, hp, ih]
    | false =>
      have hp : p a = false := by
        cases hpa : p a
        · rfl
        · rw [h a hpa] at hq; exact absurd hq (by simp)
      simp [List.filter_cons, hq, hp, ih]

theorem filterMap_filter_of_none {α β : Type} (f : α → Option β) (g : α → Bool)
    (h : ∀ a, g a = false → f a = none) (l : List α) :
    (l.filter g).filterMap f = l.filterMap f := by
  induction l with
  | nil => rfl
  | cons a t ih =>
    cases hg : g a with
    | true =>
      cases hf : f a <;> simp [List.filter_cons, hg, List.filterMap_cons, hf, ih]
    | false =>
      simp [List.filter_cons, hg, List.filterMap_cons, h a hg, ih]

theorem overwriteFold_eq_lastHit (l : List (Bool × String)) :
    ∀ d, overwriteFold d l = lastHit d l := by
  induction l with
  | nil => intro d; rfl
  | cons p t ih =>
    intro d
    have hstep : overwriteFold d (p :: t)
        = overwriteFold (if p.1 then p.2 else d) t := rfl
    rw [hstep, ih]
    unfold lastHit
    simp only [List.reverse_cons, List.find?_append]
    cases hf : t.reverse.find? (fun q => q.1) with
    | some q => simp
    | none =>
      cases hp : p.1 with
      | true => simp [List.find?, hp]
      | false => simp [List.find?, hp]

theorem strategy_as_fold (m : ScoreInput) :
    conversionStrategy m = overwriteFold "standard" (strategyRules m) := rfl

theorem classify_eq_table (mid mname : String) :
    classifyModule mid mname = classifyByTable mid mname := by
  simp only [classifyModule, classifyByTable, topicRules]
  cases h1 : kwMatch ["ai", "llm", "llm.future", "llm.response", "ucore.llm"] (strLower mid) (strLower mname) with
  | true => simp [List.find?, h1]
  | false =>
  cases h2 : kwMatch ["translation", "translate", "language"] (strLower mid) (strLower mname) with
  | true => simp [List.find?, h1, h2]
  | false =>
  cases h3 : kwMatch ["concept", "concept-registry", "userconcept"] (strLower mid) (strLower mname) with
  | true => simp [List.find?, h1, h2, h3]
  | false =>
  cases h4 : kwMatch ["joy", "resonance", "ucore.joy", "resonance-joy"] (strLower mid) (strLower mname) with
  | true => simp [List.find?, h1, h2, h3, h4]
  | false =>
  cases h5 : kwMatch ["storage", "distributed-storage", "storage-endpoints"] (strLower mid) (strLower mname) with
  | true => simp [List.find?, h1, h2, h3, h4, h5]
  | false =>
  cases h6 : kwMatch ["security", "auth", "access-control", "digital-signature", "identity"] (strLower mid) (strLower mname) with
  | true => simp [List.find?, h1, h2, h3, h4, h5, h6]
  | false =>
  cases h7 : kwMatch ["core", "breath", "composer", "delta", "phase", "plan", "relations"] (strLower mid) (strLower mname) with
  | true => simp [List.find?, h1, h2, h3, h4, h5, h6, h7]
  | false =>
  cases h8 : kwMatch ["user", "user-contributions"] (strLower mid) (strLower mname) with
  | true => simp [List.find?, h1, h2, h3, h4, h5, h6, h7, h8]
  | false =>
  cases h9 : kwMatch ["realtime", "event-streaming", "push-notifications"] (strLower mid) (strLower mname) with
  | true => simp [List.find?, h1, h2, h3, h4, h5, h6, h7, h8, h9]
  | false =>
  cases h10 : kwMatch ["analysis", "intelligent", "caching", "load-balancing"] (strLower mid) (strLower mname) with
  | true => simp [List.find?, h1, h2, h3, h4, h5, h6, h7, h8, h9, h10]
  | false =>
  cases h11 : kwMatch ["openapi", "spec", "reflect", "oneshot"] (strLower mid) (strLower mname) with
  | true => simp [List.find?, h1, h2, h3, h4, h5, h6, h7, h8, h9, h10, h11]
  | false =>
  cases h12 : kwMatch ["future", "knowledge"] (strLower mid) (strLower mname) with
  | true => simp [List.find?, h1, h2, h3, h4, h5, h6, h7, h8, h9, h10, h11, h12]
  | false =>
  simp [List.find?, h1, h2, h3, h4, h5, h6, h7, h8, h9, h10, h11, h12, kwMatch_default]

/-! Concrete fixtures used by the claim theorems. -/

/-- The module of the spec's worked scorer example. -/
def aiAnalysisModule : ModuleRec :=
  ⟨"codex.ai-analysis", "AI Analysis Module", ["AI", "Real-time"], true, false⟩

/-- Scorer input of the worked example: route count 12. -/
def aiAnalysisInput : ScoreInput :=
  ⟨"codex.ai-analysis", "AI Analysis Module", ["AI", "Real-time"], true, 12⟩

/-- Twelve routes owned by the example module. -/
def aiAnalysisRoutes : List RouteRec :=
  (List.range 12).map (fun i => ⟨"r" ++ toString i, "/x", "GET", "codex.ai-analysis"⟩)

/-- The spec's negative-score example: id contains "core", not
hot-reloadable, no routes, no features. -/
def coreLegacyInput : ScoreInput := ⟨"core-legacy", "Core Legacy", [], false, 0⟩

/-- A non-stable module with no features and no routes: its clamped
priority is 0, so the planner emits no candidate for it. -/
def lonelyModule : ModuleRec := ⟨"codex.util", "Utility", [], false, false⟩

/-- A stable module (with rich features, to exercise the stable filter). -/
def stableModule : ModuleRec := ⟨"codex.spec", "Spec Core", ["AI"], true, true⟩

/-- A hot-reloadable module with an AI feature: the two strategy
implementations disagree on it. -/
def aiHotInput : ScoreInput := ⟨"codex.ai", "AI Module", ["AI"], true, 3⟩

/-- A non-hot-reloadable candidate with priority 16 whose id contains
"test": it falls into the phase coverage gap. -/
def gapCandidate : Candidate :=
  ⟨"codex.test-suite", "Test Suite", 16, "reason", [], 3, false, "standard"⟩

/-- A small candidate family for phase-2 capacity checks. -/
def c6wit (n : Nat) (p : Int) : Candidate :=
  ⟨"m" ++ toString n, "Module", p, "r", [], 0, false, "standard"⟩

/-- Six qualifying phase-2 candidates, listed in descending priority. -/
def c6List : List Candidate :=
  [c6wit 1 30, c6wit 2 29, c6wit 3 28, c6wit 4 27, c6wit 5 26, c6wit 6 25]

/-- C1 counterexample: the claim says every module with
`isStable == false` yields exactly one candidate, but
`analyze_conversion_candidates` also drops any module whose clamped
priority is 0 (`if priority > 0`): the non-stable module
`codex.util` with no features and no routes (raw score −3, clamped 0)
yields no candidate at all. -/
theorem c1_counterexample :
    lonelyModule.isStable = false
    ∧ analyzeConversionCandidates [lonelyModule] [] = [] := by
  refine ⟨rfl, ?_⟩
  have h : (([lonelyModule] : List ModuleRec).filterMap (candidateFor [])) = [] := by
    decide
  rw [analyzeConversionCandidates, h, List.mergeSort_nil]

/-- C1 (amended): a module produces a ConversionCandidate iff it is
non-stable AND its clamped priority is positive.  The candidate list is
a permutation of the per-module outputs (so each qualifying module
yields exactly one candidate); stable modules never contribute,
regardless of features (removing them does not change the output);
non-stable modules yield exactly one candidate when their priority is
positive and none otherwise. -/
theorem c1_amended_candidacy :
    ∀ (ms : List ModuleRec) (rs : List RouteRec),
      List.Perm (analyzeConversionCandidates ms rs) (ms.filterMap (candidateFor rs))
      ∧ analyzeConversionCandidates ms rs
          = analyzeConversionCandidates (ms.filter (fun m => !m.isStable)) rs
      ∧ (∀ m : ModuleRec, m.isStable = true → candidateFor rs m = none)
      ∧ (∀ m : ModuleRec, m.isStable = false →
           0 < conversionPriority (scoreInputOf m (routeCountFor rs m.id)) →
           candidateFor rs m = some (candidateOf m (routeCountFor rs m.id)))
      ∧ (∀ m : ModuleRec, m.isStable = false →
           conversionPriority (scoreInputOf m (routeCountFor rs m.id)) ≤ 0 →
           candidateFor rs m = none) := by
  intro ms rs
  have hstable : ∀ m : ModuleRec, m.isStable = true → candidateFor rs m = none := by
    intro m hm
    simp [candidateFor, hm]
  refine ⟨List.mergeSort_perm _ priorityDesc, ?_, hstable, ?_, ?_⟩
  · unfold analyzeConversionCandidates
    rw [filterMap_filter_of_none (candidateFor rs) (fun m => !m.isStable)
          (by intro m hm
              simp only [Bool.not_eq_false'] at hm
              exact hstable m hm) ms]
  · intro m hm hp
    simp [candidateFor, hm, hp]
  · intro m hm hp
    rw [candidateFor]
    simp [hm, not_lt.mpr hp]

/-- C1 witness: the amended candidacy rule applied to a concrete stable
module and to a concrete zero-priority non-stable module. -/
theorem c1_amended_candidacy_witness :
    candidateFor [] stableModule = none ∧ candidateFor [] lonelyModule = none := by
  refine ⟨(c1_amended_candidacy [] []).2.2.1 stableModule rfl, ?_⟩
  exact (c1_amended_candidacy [] []).2.2.2.2 lonelyModule rfl (by decide)

/-- C2 counterexample: the claim says `_calculate_conversion_priority`
and `_determine_strategy` return the same strategy for identical module
input, but on the hot-reloadable module `codex.ai` with feature list
`["AI"]` the scorer returns `"hot-reload-ready"` (its hot-reload rule
overwrites `"ai-enhanced"`) while `_determine_strategy`, which has no
hot-reload rule, returns `"ai-enhanced"`. -/
theorem c2_counterexample :
    conversionStrategy aiHotInput = "hot-reload-ready"
    ∧ determineStrategy aiHotInput = "ai-enhanced"
    ∧ conversionStrategy aiHotInput ≠ determineStrategy aiHotInput := by
  refine ⟨by decide, by decide, by decide⟩

/-- C2 (amended): the strategy tag produced by
`_calculate_conversion_priority` is the strategy set by the LAST
matching rule in table order (AI/LLM, Resonance, Real-time, Translation,
Security, Graph, hot-reloadable, test/demo, spec, concept); in
particular a hot-reloadable module whose features contain "AI" gets
`"hot-reload-ready"`, not `"ai-enhanced"`.  However the second
implementation, `_determine_strategy`, uses first-match over a different
rule order with no hot-reload rule, and returns a different strategy on
that very module. -/
theorem c2_amended_strategy :
    (∀ m : ScoreInput, conversionStrategy m = lastHit "standard" (strategyRules m))
    ∧ conversionStrategy aiHotInput = "hot-reload-ready"
    ∧ determineStrategy aiHotInput = "ai-enhanced" := by
  refine ⟨?_, by decide, by decide⟩
  intro m
  rw [strategy_as_fold, overwriteFold_eq_lastHit]

/-- C3: the worked example: module `codex.ai-analysis` with features
AI and Real-time, hot-reloadable, 12 routes, not stable, scores
priority 45 (raw sum 20+12+8+5) with strategy `"hot-reload-ready"`, and
the resulting plan puts it (and only it) into Phase 1. -/
theorem c3_ai_analysis_example :
    rawConversionPriority aiAnalysisInput = 45
    ∧ conversionPriority aiAnalysisInput = 45
    ∧ conversionStrategy aiAnalysisInput = "hot-reload-ready"
    ∧ phase1Pred (candidateOf aiAnalysisModule 12) = true
    ∧ (createConversionPhases
        (analyzeConversionCandidates [aiAnalysisModule] aiAnalysisRoutes)).map
          (fun ph => (ph.phase, ph.modules))
      = [(1, [⟨"codex.ai-analysis", "AI Analysis Module", 45⟩])] := by
  have hcand : analyzeConversionCandidates [aiAnalysisModule] aiAnalysisRoutes
      = [candidateOf aiAnalysisModule 12] := by
    have h : (([aiAnalysisModule] : List ModuleRec).filterMap
        (candidateFor aiAnalysisRoutes)) = [candidateOf aiAnalysisModule 12] := by
      decide
    rw [analyzeConversionCandidates, h, List.mergeSort_singleton]
  refine ⟨by decide, by decide, by decide, by decide, ?_⟩
  rw [hcand]
  decide

/-- C4: topic classification is total and deterministic (it is a pure
Lean function); the `if/elif` chain is exactly first-match-wins over the
ordered 13-rule table (12 keyword rules plus the default rule yielding
`Other`); a module matching none of the 12 keyword rules gets `Other`;
and `"ai-concept-engine"`, whose id contains both "ai" and "concept"
keywords, classifies as AI/LLM for every module name because the AI rule
precedes the Concept rule. -/
theorem c4_classifier_first_match :
    (∀ mid mname : String, classifyModule mid mname = classifyByTable mid mname)
    ∧ topicRules.length = 13
    ∧ (∀ mid mname : String,
        ((topicRules.take 12).all
          (fun r => !(kwMatch r.1 (strLower mid) (strLower mname)))) = true →
        classifyModule mid mname = Topic.other)
    ∧ (∀ mname : String, classifyModule "ai-concept-engine" mname = Topic.aiLLM) := by
  refine ⟨classify_eq_table, rfl, ?_, ?_⟩
  · intro mid mname h
    simp only [topicRules, List.take, List.all_cons, List.all_nil,
      Bool.and_eq_true, Bool.not_eq_true'] at h
    obtain ⟨h1, h2, h3, h4, h5, h6, h7, h8, h9, h10, h11, h12, -⟩ := h
    simp [classifyModule, h1, h2, h3, h4, h5, h6, h7, h8, h9, h10, h11, h12]
  · intro mname
    have hai : strHas (strLower "ai-concept-engine") "ai" = true := by decide
    simp [classifyModule, kwMatch, hai]

/-- C4 witness: a module whose id and name match no keyword rule is
classified `Other`. -/
theorem c4_classifier_first_match_witness :
    classifyModule "x" "y" = Topic.other :=
  c4_classifier_first_match.2.2.1 "x" "y" (by decide)

/-- C5: the reported priority is always non-negative: the raw additive
sum is clamped with `max(0, ...)`.  On the spec's example (id
`"core-legacy"`, not hot-reloadable, zero routes, no features) the raw
sum is −8 (−5 core penalty, −3 no-routes penalty) and the reported
priority is 0. -/
theorem c5_priority_clamped_nonneg :
    (∀ m : ScoreInput, 0 ≤ conversionPriority m)
    ∧ rawConversionPriority coreLegacyInput = -8
    ∧ conversionPriority coreLegacyInput = 0 := by
  refine ⟨fun m => le_max_left 0 _, by decide, by decide⟩

/-- C6: on the sorted candidate list the planner receives, the Phase 2
module list is the first five entries of the phase-2 filter, so it never
exceeds five entries; because the list is sorted descending by priority,
every dropped qualifying candidate has priority at most that of every
selected one; and the sort is stable: any pair already in descending
(or tied) priority order in the input keeps its relative order. -/
theorem c6_phase2_capacity :
    ∀ cs : List Candidate,
      (((List.mergeSort cs priorityDesc).filter phase2Pred).take 5).length ≤ 5
      ∧ (∀ ph ∈ createConversionPhases (List.mergeSort cs priorityDesc),
          ph.phase = 2 →
            ph.modules =
              (((List.mergeSort cs priorityDesc).filter phase2Pred).take 5).map phaseEntryOf
            ∧ ph.modules.length ≤ 5)
      ∧ (∀ x ∈ ((List.mergeSort cs priorityDesc).filter phase2Pred).take 5,
         ∀ y ∈ ((List.mergeSort cs priorityDesc).filter phase2Pred).drop 5,
           y.priority ≤ x.priority)
      ∧ (∀ a b : Candidate, [a, b].Sublist cs → priorityDesc a b = true →
           [a, b].Sublist (List.mergeSort cs priorityDesc)) := by
  intro cs
  refine ⟨List.length_take_le 5 _, ?_, ?_, ?_⟩
  · intro ph hph hph2
    have hmod : ph.modules =
        (((List.mergeSort cs priorityDesc).filter phase2Pred).take 5).map phaseEntryOf := by
      simp only [createConversionPhases, List.mem_append] at hph
      rcases hph with ((h | h) | h) | h <;> revert h <;> split_ifs <;>
        intro h <;> simp only [List.mem_singleton, List.not_mem_nil] at h <;>
        subst h <;> first
          | rfl
          | (exfalso; simp at hph2)
    refine ⟨hmod, ?_⟩
    rw [hmod, List.length_map]
    exact List.length_take_le 5 _
  · intro x hx y hy
    have hsorted : (List.mergeSort cs priorityDesc).Pairwise
        (fun a b => priorityDesc a b = true) :=
      List.sorted_mergeSort priorityDesc_trans priorityDesc_total cs
    have hfil : ((List.mergeSort cs priorityDesc).filter phase2Pred).Pairwise
        (fun a b => priorityDesc a b = true) :=
      hsorted.sublist (List.filter_sublist _)
    have hxy := pairwise_take_drop hfil 5 x hx y hy
    simpa [priorityDesc] using hxy
  · intro a b hsub hab
    exact List.pair_sublist_mergeSort priorityDesc_trans priorityDesc_total hab hsub

/-- C6 witness: with six qualifying candidates of priorities 30..25, the
sixth (dropped) candidate's priority is at most the first (selected)
one's. -/
theorem c6_phase2_capacity_witness :
    (c6wit 6 25).priority ≤ (c6wit 1 30).priority := by
  have hsorted : c6List.Pairwise (fun a b => priorityDesc a b = true) := by decide
  have hs : List.mergeSort c6List priorityDesc = c6List :=
    List.mergeSort_of_sorted hsorted
  apply (c6_phase2_capacity c6List).2.2.1
  · rw [hs]; decide
  · rw [hs]; decide

/-- The coverage-gap predicate of the phase planner: not hot-reloadable,
priority in `[15, 20)`, id contains "test". -/
def gapC7 (c : Candidate) : Bool :=
  !c.isHotReloadable && decide (15 ≤ c.priority) && decide (c.priority < 20)
    && strHas (strLower c.id) "test"

/-- C7: a candidate that is not hot-reloadable, has priority in
`[15, 20)` and whose id contains "test" satisfies none of the four phase
predicates; consequently such candidates appear in no phase: removing
them from any candidate list leaves every phase of the plan unchanged. -/
theorem c7_coverage_gap :
    (∀ c : Candidate, gapC7 c = true →
      phase1Pred c = false ∧ phase2Pred c = false
      ∧ phase3Pred c = false ∧ phase4Pred c = false)
    ∧ (∀ cs : List Candidate,
        createConversionPhases (cs.filter (fun c => !(gapC7 c)))
          = createConversionPhases cs) := by
  have hpred : ∀ c : Candidate, gapC7 c = true →
      phase1Pred c = false ∧ phase2Pred c = false
      ∧ phase3Pred c = false ∧ phase4Pred c = false := by
    intro c hc
    simp only [gapC7, Bool.and_eq_true, Bool.not_eq_true', decide_eq_true_eq] at hc
    obtain ⟨⟨⟨hh, h15⟩, h20⟩, ht⟩ := hc
    refine ⟨?_, ?_, ?_, ?_⟩
    · simp [phase1Pred, hh]
    · simp [phase2Pred, ht]
    · simp only [phase3Pred, Bool.and_eq_false_iff, decide_eq_false_iff_not]
      right; omega
    · simp only [phase4Pred, Bool.and_eq_false_iff, decide_eq_false_iff_not]
      left; omega
  have hkeep : ∀ (p : Candidate → Bool),
      (∀ c, gapC7 c = true → p c = false) →
      ∀ cs : List Candidate,
        (cs.filter (fun c => !(gapC7 c))).filter p = cs.filter p := by
    intro p hp cs
    apply filter_filter_of_imp
    intro c hc
    cases hg : gapC7 c with
    | false => simp
    | true => rw [hp c hg] at hc; exact absurd hc (by simp)
  refine ⟨hpred, ?_⟩
  intro cs
  simp only [createConversionPhases]
  rw [hkeep phase1Pred (fun c hc => (hpred c hc).1) cs,
      hkeep phase2Pred (fun c hc => (hpred c hc).2.1) cs,
      hkeep phase3Pred (fun c hc => (hpred c hc).2.2.1) cs,
      hkeep phase4Pred (fun c hc => (hpred c hc).2.2.2) cs]

/-- C7 witness: the gap candidate `codex.test-suite` (priority 16, not
hot-reloadable) fails all four phase predicates. -/
theorem c7_coverage_gap_witness :
    gapC7 gapCandidate = true
    ∧ phase1Pred gapCandidate = false ∧ phase2Pred gapCandidate = false
    ∧ phase3Pred gapCandidate = false ∧ phase4Pred gapCandidate = false := by
  have h : gapC7 gapCandidate = true := by decide
  exact ⟨h, c7_coverage_gap.1 gapCandidate h⟩

/-- C8: for every module's route set, the cohesion report's score equals
`max(0, 10 − issueCount − distinctConcernCount)`, and the
multiple-concerns issue is present in the report exactly when more than
two distinct concern tags are observed among the module's routes. -/
theorem c8_cohesion_score :
    ∀ (mid : String) (routes : List RouteEntry),
      (analyzeModuleCohesion mid routes).cohesionScore
        = max 0 ((10 : Int) - (analyzeModuleCohesion mid routes).issues.length
            - (analyzeModuleCohesion mid routes).concerns.card)
      ∧ (Issue.multipleConcerns ∈ (analyzeModuleCohesion mid routes).issues
          ↔ 2 < (analyzeModuleCohesion mid routes).concerns.card) := by
  intro mid routes
  constructor
  · rfl
  · simp only [analyzeModuleCohesion]
    by_cases h2 : 2 < (routes.filterMap concernOf).toFinset.card <;>
      split_ifs <;> simp_all

/-- C9 counterexample: the claim says a failed upstream fetch is
distinguishable, in what the caller receives, from a successful run
that found zero records; but `get_loaded_modules` returns the very same
empty list in both cases (the `except` handler only prints a message and
returns `[]`). -/
theorem c9_counterexample :
    (getLoadedModules (Except.error "connection refused")).result
      = (getLoadedModules (Except.ok [])).result := rfl

/-- C9 (amended): when the upstream fetch fails, `get_loaded_modules`
and `get_all_routes` print an error message and return the empty list —
the same return value as a successful run with zero records — so the
caller proceeds over the empty record set; the only failure signal is
the printed message, not the returned data. -/
theorem c9_amended_empty_on_failure :
    ∀ e : String,
      (getLoadedModules (Except.error e)).result = []
      ∧ (getLoadedModules (Except.error e)).printed
          = ["Error getting modules: " ++ e]
      ∧ (getAllRoutes (Except.error e)).result = []
      ∧ (getAllRoutes (Except.error e)).printed
          = ["Error getting routes: " ++ e]
      ∧ (getLoadedModules (Except.error e)).result
          = (getLoadedModules (Except.ok [])).result := by
  intro e
  exact ⟨rfl, rfl, rfl, rfl, rfl⟩

/-- C10: in cohesion analysis each route contributes at most one concern
tag, the first matching family in the fixed order ai, translation,
concept, joy, resonance, storage (the chain equals first-match over the
ordered family list); the route with path `/ai/translate` and name
`translate-text` matches the translation family too, yet is tagged only
`ai`. -/
theorem c10_first_concern_only :
    (∀ r : RouteEntry, concernOf r = concernOrder.find? (fun c => famMatch c r))
    ∧ concernOf ⟨"/ai/translate", "translate-text"⟩ = some Concern.ai
    ∧ famMatch Concern.translation ⟨"/ai/translate", "translate-text"⟩ = true := by
  refine ⟨?_, by decide, by decide⟩
  intro r
  simp only [concernOf, concernOrder, List.find?, famMatch]
  cases h1 : strStarts r.route "/ai/" || strHas (strLower r.apiName) "ai" <;>
  cases h2 : strStarts r.route "/translation/" || strHas (strLower r.apiName) "translate" <;>
  cases h3 : strStarts r.route "/concept/" || strHas (strLower r.apiName) "concept" <;>
  cases h4 : strStarts r.route "/joy/" || strHas (strLower r.apiName) "joy" <;>
  cases h5 : strStarts r.route "/resonance/" || strHas (strLower r.apiName) "resonance" <;>
  cases h6 : strStarts r.route "/storage/" || strHas (strLower r.apiName) "storage" <;>
  simp [h1, h2, h3, h4, h5, h6]

end LivingCodex
